import Mathlib

/-!
Verification of the command-line bridge in python_bridge.py.

The bridge is embedded shallowly: the external agent collaborator is a
record of operations that either return a value or raise a fault
(`Except String _`, the `String` being the fault description `str(e)`),
the process-wide mutable `agent` global is threaded explicitly as an
`Option AgentOps`, and each handler is a total Lean function returning
the Result dictionary it would print together with the new value of the
global.  Numeric fields interpolated into f-strings only through `str()`
are modelled as their rendered `String` forms.
-/

namespace PythonBridge

/-- Rendered summary statistics of a conversation, as consumed by the
formatting code (every field is only ever interpolated into an f-string). -/
structure Summary where
  total_messages : String
  user_messages : String
  assistant_messages : String
  conversation_duration_hours : String
  conversation_start : String
  last_activity : String
deriving DecidableEq, Repr

/-- Sentiment block of a conversation analysis. -/
structure Sentiment where
  overall_sentiment : String
  engagement_level : String
  question_count : String
deriving DecidableEq, Repr

/-- One recent message of a conversation analysis. -/
structure Message where
  role : String
  timestamp : String
  content : String
deriving DecidableEq, Repr

/-- Conversation Analysis as returned by
`agent.conversation_memory.analyze_conversation(user_id)`. -/
structure Analysis where
  has_conversation : Bool
  summary : Summary
  topics : List String
  sentiment : Sentiment
  insights : List String
  recent_messages : List Message
deriving DecidableEq, Repr

/-- The operations the bridge invokes on an initialized agent instance.
Each operation either produces its value or raises a fault whose
description is the `String` carried by `Except.error`. -/
structure AgentOps where
  process_message : String → String → Except String String
  clear_conversation : String → Except String String
  get_help_message : Except String String
  analyze_conversation : String → Except String Analysis

/-- Process environment: the outcome `IntelligentAgent()` construction
would have in this process.  `none` models the constructor raising. -/
structure Env where
  initResult : Option AgentOps

/-- Per-tool entry of the test_tools result mapping. -/
structure ToolResult where
  status : String
  query : String
  response : Option String := none
  error : Option String := none
deriving DecidableEq, Repr

/-- The Result dictionary a handler returns; each key is optional,
mirroring the several dict shapes built in the source. -/
structure Result where
  response : Option String := none
  error : Option String := none
  success : Option Bool := none
  test_results : Option (List (String × ToolResult)) := none
deriving DecidableEq, Repr

/-- Outcome of one process invocation: either a Result printed on the
primary stream (stdout) with the given exit code, or an error document
printed on the secondary stream (stderr) with the given exit code. -/
inductive MainOutcome where
  | primary : Result → Nat → MainOutcome
  | stderrFailure : Result → Nat → MainOutcome
deriving DecidableEq, Repr

/-- Embedding of Python str.title over the characters of a string:
an alphabetic character is uppercased when the previous character is
not alphabetic, lowercased otherwise. -/
def pyTitleGo : Bool → List Char → List Char
  | _, [] => []
  | prevCased, c :: cs =>
    if c.isAlpha then
      (if prevCased then c.toLower else c.toUpper) :: pyTitleGo true cs
    else
      c :: pyTitleGo false cs

/-- Python str.title on a string. -/
def pyTitle (s : String) : String :=
  String.mk (pyTitleGo false s.data)

/-- The error message of the agent-initialization fallback Result. -/
def initErrorMsg : String := "Failed to initialize intelligent agent"

/-- The apologetic fallback response used by process_message and
analyze_conversation when agent initialization fails. -/
def initApology : String :=
  "I\x27m sorry, but I\x27m having trouble connecting to my AI brain right now. Please try again later."

/-- Embedding of initialize_agent: sets the global to the constructed
instance and reports True, or leaves it None and reports False. -/
def init_agent (env : Env) : Option AgentOps × Bool :=
  match env.initResult with
  | some ops => (some ops, true)
  | none => (none, false)

/-- Body of process_message once an agent instance is at hand: drive the
asynchronous call and convert a fault into an error Result. -/
def process_message_body (ops : AgentOps) (message user_id : String) : Result :=
  match ops.process_message message user_id with
  | .ok response => { response := some response, success := some true }
  | .error e =>
      { error := some e,
        response := some ("I encountered an error while processing your message: " ++ e) }

/-- Embedding of process_message: lazily initialize the global agent when
it is unset, falling back to the apologetic error Result when
construction fails. -/
def process_message (env : Env) (agent : Option AgentOps)
    (message user_id : String) : Result × Option AgentOps :=
  match agent with
  | some ops => (process_message_body ops message user_id, some ops)
  | none =>
    match env.initResult with
    | some ops => (process_message_body ops message user_id, some ops)
    | none => ({ error := some initErrorMsg, response := some initApology }, none)

/-- Body of clear_conversation once an agent instance is at hand. -/
def clear_conversation_body (ops : AgentOps) (user_id : String) : Result :=
  match ops.clear_conversation user_id with
  | .ok response => { response := some response, success := some true }
  | .error e => { error := some e, success := some false }

/-- Embedding of clear_conversation: lazy initialization as in
process_message, but its initialization-failure Result carries
success false and no response string. -/
def clear_conversation (env : Env) (agent : Option AgentOps)
    (user_id : String) : Result × Option AgentOps :=
  match agent with
  | some ops => (clear_conversation_body ops user_id, some ops)
  | none =>
    match env.initResult with
    | some ops => (clear_conversation_body ops user_id, some ops)
    | none => ({ error := some initErrorMsg, success := some false }, none)

/-- Fault description Python raises for `agent.get_help_message()` when
the global agent is None (an AttributeError caught by the handler). -/
def noneGetHelpFault : String :=
  "\x27NoneType\x27 object has no attribute \x27get_help_message\x27"

/-- Embedding of get_help.  The source never checks or initializes the
global agent here: a None agent raises an AttributeError inside the try
block, which the except clause converts to an error Result. -/
def get_help (_env : Env) (agent : Option AgentOps) : Result :=
  match agent with
  | none =>
      { error := some noneGetHelpFault,
        response := some ("I encountered an error while getting help: " ++ noneGetHelpFault) }
  | some ops =>
    match ops.get_help_message with
    | .ok response => { response := some response, success := some true }
    | .error e =>
        { error := some e,
          response := some ("I encountered an error while getting help: " ++ e) }

/-- The fixed first-contact greeting of analyze_conversation. -/
def firstContactGreeting : String :=
  "We haven\x27t had any previous conversations in this session. This is our first interaction! 😊"

/-- Pluralization used in the closing summary of the analysis report,
embedding the conditional expression of the source. -/
def pluralS (n : Nat) : String := if n ≠ 1 then "s" else ""

/-- One bullet line per insight. -/
def insightBullet (insight : String) : String := "• " ++ insight

/-- One line per recent message, with the role-specific marker. -/
def messageLine (msg : Message) : String :=
  (if msg.role = "user" then "👤" else "🤖") ++ " **" ++ pyTitle msg.role ++ "** ("
    ++ msg.timestamp ++ "): " ++ msg.content

/-- The response_parts list built by analyze_conversation for a user with
history, line by line as in the source. -/
def analysisReport (a : Analysis) : List String :=
  ["🧠 **Conversation Analysis Report** 📊",
   "",
   "📈 **Conversation Statistics:**",
   "• **Total Messages:** " ++ a.summary.total_messages,
   "• **Your Messages:** " ++ a.summary.user_messages,
   "• **My Responses:** " ++ a.summary.assistant_messages,
   "• **Duration:** " ++ a.summary.conversation_duration_hours ++ " hours",
   "• **Started:** " ++ a.summary.conversation_start,
   "• **Last Activity:** " ++ a.summary.last_activity,
   "",
   "🎯 **Topics Discussed:**",
   "• " ++ String.intercalate ", " a.topics,
   "",
   "😊 **Sentiment Analysis:**",
   "• **Overall Tone:** " ++ pyTitle a.sentiment.overall_sentiment,
   "• **Engagement Level:** " ++ pyTitle a.sentiment.engagement_level,
   "• **Questions Asked:** " ++ a.sentiment.question_count,
   "",
   "💡 **Key Insights:**"]
  ++ a.insights.map insightBullet
  ++ ["",
      "🔄 **Recent Messages:**"]
  ++ a.recent_messages.map messageLine
  ++ ["",
      "💭 **Analysis Summary:**",
      "This conversation shows " ++ a.sentiment.engagement_level ++ " engagement with a "
        ++ a.sentiment.overall_sentiment ++ " tone. ",
      "We\x27ve covered " ++ toString a.topics.length ++ " main topic"
        ++ pluralS a.topics.length ++ " over "
        ++ a.summary.conversation_duration_hours ++ " hours. ",
      "I\x27m here to continue helping you with any questions or tasks! 🚀"]

/-- Body of analyze_conversation once an agent instance is at hand. -/
def analyze_conversation_body (ops : AgentOps) (user_id : String) : Result :=
  match ops.analyze_conversation user_id with
  | .error e =>
      { error := some e,
        response := some ("I encountered an error while analyzing our conversation: " ++ e) }
  | .ok analysis =>
    if analysis.has_conversation = false then
      { response := some firstContactGreeting, success := some true }
    else
      { response := some (String.intercalate "\n" (analysisReport analysis)),
        success := some true }

/-- Embedding of analyze_conversation: lazy initialization with the same
apologetic fallback Result as process_message. -/
def analyze_conversation (env : Env) (agent : Option AgentOps)
    (user_id : String) : Result × Option AgentOps :=
  match agent with
  | some ops => (analyze_conversation_body ops user_id, some ops)
  | none =>
    match env.initResult with
    | some ops => (analyze_conversation_body ops user_id, some ops)
    | none => ({ error := some initErrorMsg, response := some initApology }, none)

/-- The sample queries test_tools probes, in source order. -/
def test_queries : List (String × String) :=
  [("dictionary", "test"),
   ("weather", "current weather"),
   ("web_search", "latest news"),
   ("gmail", "email functionality"),
   ("sheets", "spreadsheet access")]

/-- The per-tool probe of test_tools.  The body of the per-tool try
block is a pure dictionary construction, so it never raises: the probe
always succeeds, whatever the tool and query. -/
def toolProbe (tool_name query : String) : Except String ToolResult :=
  Except.ok
    { status := "success",
      query := query,
      response := some (pyTitle tool_name ++ " tool is available and working") }

/-- Embedding of test_tools.  The source checks the global agent but
never attempts initialization, and its uninitialized Result has no
response string; with an agent it folds the per-tool probes, the
except clause of each probe mapping a fault to a status-error entry. -/
def test_tools (_env : Env) (agent : Option AgentOps) : Result :=
  match agent with
  | none => { error := some "Agent not initialized", success := some false }
  | some _ =>
      { test_results := some (test_queries.map (fun p =>
          (p.1, match toolProbe p.1 p.2 with
            | .ok r => r
            | .error e => { status := "error", query := p.2, error := some e }))),
        success := some true }

/-- The five supported command names. -/
def supportedCommands : List String :=
  ["process_message", "clear_conversation", "get_help", "test_tools", "analyze_conversation"]

/-- Command dispatch of main: route to the handler, defaulting the user
identifier to the shared sentinel, and normalize an unknown command into
an error Result. -/
def dispatch (env : Env) (agent : Option AgentOps)
    (command : String) (args : List String) : Result :=
  if command = "process_message" then
    match args with
    | [] => { error := some "Message required for process_message command" }
    | [message] => (process_message env agent message "web-user").1
    | message :: user_id :: _ => (process_message env agent message user_id).1
  else if command = "clear_conversation" then
    (clear_conversation env agent (args.headD "web-user")).1
  else if command = "get_help" then
    get_help env agent
  else if command = "test_tools" then
    test_tools env agent
  else if command = "analyze_conversation" then
    (analyze_conversation env agent (args.headD "web-user")).1
  else
    { error := some ("Unknown command: " ++ command) }

/-- Embedding of main over the argument vector after the program name:
with no command it writes an error document to the secondary stream and
exits 1; otherwise the dispatched Result goes to the primary stream and
the process exits 0. -/
def main (env : Env) (agent : Option AgentOps) (argv : List String) : MainOutcome :=
  match argv with
  | [] => .stderrFailure { error := some "No command provided" } 1
  | command :: args => .primary (dispatch env agent command args) 0

/-- Named sections of the analysis report, for stating the formatting
contract.  Header of the whole report. -/
def reportHeader : List String :=
  ["🧠 **Conversation Analysis Report** 📊", ""]

/-- Statistics section of the analysis report. -/
def statisticsSection (s : Summary) : List String :=
  ["📈 **Conversation Statistics:**",
   "• **Total Messages:** " ++ s.total_messages,
   "• **Your Messages:** " ++ s.user_messages,
   "• **My Responses:** " ++ s.assistant_messages,
   "• **Duration:** " ++ s.conversation_duration_hours ++ " hours",
   "• **Started:** " ++ s.conversation_start,
   "• **Last Activity:** " ++ s.last_activity]

/-- Topics section of the analysis report. -/
def topicsSection (topics : List String) : List String :=
  ["",
   "🎯 **Topics Discussed:**",
   "• " ++ String.intercalate ", " topics]

/-- Sentiment section of the analysis report. -/
def sentimentSection (sn : Sentiment) : List String :=
  ["",
   "😊 **Sentiment Analysis:**",
   "• **Overall Tone:** " ++ pyTitle sn.overall_sentiment,
   "• **Engagement Level:** " ++ pyTitle sn.engagement_level,
   "• **Questions Asked:** " ++ sn.question_count]

/-- Insights section: one bullet per insight, in the supplied order. -/
def insightsSection (insights : List String) : List String :=
  ["", "💡 **Key Insights:**"] ++ insights.map insightBullet

/-- Recent-messages section: one line per message, in the supplied order. -/
def recentMessagesSection (msgs : List Message) : List String :=
  ["", "🔄 **Recent Messages:**"] ++ msgs.map messageLine

/-- Closing summary of the analysis report, with the topic-count
pluralization. -/
def closingSection (a : Analysis) : List String :=
  ["",
   "💭 **Analysis Summary:**",
   "This conversation shows " ++ a.sentiment.engagement_level ++ " engagement with a "
     ++ a.sentiment.overall_sentiment ++ " tone. ",
   "We\x27ve covered " ++ toString a.topics.length ++ " main topic"
     ++ pluralS a.topics.length ++ " over "
     ++ a.summary.conversation_duration_hours ++ " hours. ",
   "I\x27m here to continue helping you with any questions or tasks! 🚀"]

/-- Concrete agent whose operations all succeed, returning a fixed
no-history analysis. -/
def stubAnalysis : Analysis :=
  { has_conversation := false,
    summary := ⟨"0", "0", "0", "0.0", "-", "-"⟩,
    topics := ["python", "weather"],
    sentiment := ⟨"neutral", "low", "0"⟩,
    insights := ["stub insight"],
    recent_messages := [⟨"user", "t0", "hi"⟩] }

/-- A concrete analysis of a user with history. -/
def convAnalysis : Analysis :=
  { has_conversation := true,
    summary := ⟨"4", "2", "2", "1.5", "2026-01-01", "2026-01-02"⟩,
    topics := ["weather"],
    sentiment := ⟨"positive", "high", "2"⟩,
    insights := ["asks many questions"],
    recent_messages := [⟨"user", "t1", "hello"⟩, ⟨"assistant", "t2", "hi there"⟩] }

/-- An agent whose operations all succeed. -/
def stubOps : AgentOps :=
  { process_message := fun _ _ => .ok "ok",
    clear_conversation := fun _ => .ok "cleared",
    get_help_message := .ok "help text",
    analyze_conversation := fun _ => .ok stubAnalysis }

/-- An agent whose operations return the history analysis. -/
def convOps : AgentOps :=
  { process_message := fun _ _ => .ok "ok",
    clear_conversation := fun _ => .ok "cleared",
    get_help_message := .ok "help text",
    analyze_conversation := fun _ => .ok convAnalysis }

/-- An agent whose asynchronous operations all raise the fault "boom". -/
def failOps : AgentOps :=
  { process_message := fun _ _ => .error "boom",
    clear_conversation := fun _ => .error "boom",
    get_help_message := .error "boom",
    analyze_conversation := fun _ => .error "boom" }

/-- Environment in which agent construction fails. -/
def envFail : Env := ⟨none⟩

/-- Environment in which agent construction succeeds. -/
def envOk : Env := ⟨some stubOps⟩

/-- C1 (amended): on the success path of every supported handler the
emitted Result carries success = true; on the handled-error paths,
clear_conversation and test_tools carry success = false, while
process_message, get_help and analyze_conversation omit the success
field altogether. -/
theorem C1_success_field_amended (env : Env) (agent : Option AgentOps)
    (message user_id : String) :
    ((process_message env agent message user_id).1.success =
      if (process_message env agent message user_id).1.error = none then some true else none)
    ∧ ((clear_conversation env agent user_id).1.success =
      if (clear_conversation env agent user_id).1.error = none then some true else some false)
    ∧ ((get_help env agent).success =
      if (get_help env agent).error = none then some true else none)
    ∧ ((analyze_conversation env agent user_id).1.success =
      if (analyze_conversation env agent user_id).1.error = none then some true else none)
    ∧ ((test_tools env agent).success =
      if (test_tools env agent).error = none then some true else some false) := by
  refine ⟨?_, ?_, ?_, ?_, ?_⟩
  · rcases agent with _ | ops
    · rcases henv : env.initResult with _ | ops
      · simp [process_message, henv]
      · rcases h : ops.process_message message user_id with e | r <;>
          simp [process_message, process_message_body, henv, h]
    · rcases h : ops.process_message message user_id with e | r <;>
        simp [process_message, process_message_body, h]
  · rcases agent with _ | ops
    · rcases henv : env.initResult with _ | ops
      · simp [clear_conversation, henv]
      · rcases h : ops.clear_conversation user_id with e | r <;>
          simp [clear_conversation, clear_conversation_body, henv, h]
    · rcases h : ops.clear_conversation user_id with e | r <;>
        simp [clear_conversation, clear_conversation_body, h]
  · rcases agent with _ | ops
    · simp [get_help]
    · rcases h : ops.get_help_message with e | r <;> simp [get_help, h]
  · rcases agent with _ | ops
    · rcases henv : env.initResult with _ | ops
      · simp [analyze_conversation, henv]
      · rcases h : ops.analyze_conversation user_id with e | a
        · simp [analyze_conversation, analyze_conversation_body, henv, h]
        · rcases hc : a.has_conversation <;>
            simp [analyze_conversation, analyze_conversation_body, henv, h, hc]
    · rcases h : ops.analyze_conversation user_id with e | a
      · simp [analyze_conversation, analyze_conversation_body, h]
      · rcases hc : a.has_conversation <;>
          simp [analyze_conversation, analyze_conversation_body, h, hc]
  · rcases agent with _ | ops <;> simp [test_tools]

/-- C1 counterexample: for the supported command process_message, the
Result emitted on the primary stream when agent initialization fails has
no success field at all, refuting that every handled-error path carries
one. -/
theorem C1_success_field_counterexample :
    main envFail none ["process_message", "hi"] =
      .primary { error := some initErrorMsg, response := some initApology } 0
    ∧ Result.success { error := some initErrorMsg, response := some initApology } = none :=
  ⟨rfl, rfl⟩

/-- C2 (amended): when agent construction fails, process_message and
analyze_conversation return an error field together with a non-empty
apologetic response, while clear_conversation returns the error field
with success = false and no response string. -/
theorem C2_init_failure_amended (env : Env) (message user_id : String)
    (h : env.initResult = none) :
    (process_message env none message user_id).1 =
      { error := some initErrorMsg, response := some initApology }
    ∧ (analyze_conversation env none user_id).1 =
      { error := some initErrorMsg, response := some initApology }
    ∧ (clear_conversation env none user_id).1 =
      { error := some initErrorMsg, success := some false }
    ∧ initApology ≠ "" :=
  ⟨by simp [process_message, h], by simp [analyze_conversation, h],
   by simp [clear_conversation, h], by decide⟩

/-- C2 witness: the amended statement instantiated in the environment
whose construction fails. -/
theorem C2_init_failure_witness :
    envFail.initResult = none
    ∧ ((process_message envFail none "hi" "web-user").1 =
        { error := some initErrorMsg, response := some initApology }
      ∧ (analyze_conversation envFail none "web-user").1 =
        { error := some initErrorMsg, response := some initApology }
      ∧ (clear_conversation envFail none "web-user").1 =
        { error := some initErrorMsg, success := some false }
      ∧ initApology ≠ "") :=
  ⟨rfl, C2_init_failure_amended envFail "hi" "web-user" rfl⟩

/-- C2 counterexample: on agent-construction failure clear_conversation
returns no response string at all, refuting that all three handlers
return a non-empty apologetic response. -/
theorem C2_init_failure_counterexample :
    (clear_conversation envFail none "web-user").1.response = none
    ∧ (clear_conversation envFail none "web-user").1.error = some initErrorMsg :=
  ⟨rfl, rfl⟩

/-- C3 (amended): process_message, clear_conversation and
analyze_conversation lazily attempt construction exactly once when the
handle is unset, process_message and analyze_conversation falling back
to the apologetic agent-unavailable Result and clear_conversation to an
error without a response; get_help never attempts initialization and an
unset handle surfaces as a caught attribute fault; test_tools checks the
handle without attempting initialization and returns the
agent-not-initialized error without a fallback response string. -/
theorem C3_lazy_init_amended (env : Env) (message user_id : String) :
    (process_message env none message user_id =
      match env.initResult with
      | some ops => process_message env (some ops) message user_id
      | none => ({ error := some initErrorMsg, response := some initApology }, none))
    ∧ (clear_conversation env none user_id =
      match env.initResult with
      | some ops => clear_conversation env (some ops) user_id
      | none => ({ error := some initErrorMsg, success := some false }, none))
    ∧ (analyze_conversation env none user_id =
      match env.initResult with
      | some ops => analyze_conversation env (some ops) user_id
      | none => ({ error := some initErrorMsg, response := some initApology }, none))
    ∧ get_help env none =
      { error := some noneGetHelpFault,
        response := some ("I encountered an error while getting help: " ++ noneGetHelpFault) }
    ∧ test_tools env none = { error := some "Agent not initialized", success := some false } := by
  refine ⟨?_, ?_, ?_, rfl, rfl⟩ <;>
    rcases henv : env.initResult with _ | ops <;>
      simp [process_message, clear_conversation, analyze_conversation, henv]

/-- C3 counterexample: in an environment where agent construction would
succeed, test_tools with an unset handle still returns the
agent-not-initialized error with no response string, and get_help
surfaces the attribute fault, so neither attempts lazy initialization
nor returns the standard fallback Result with a response string. -/
theorem C3_lazy_init_counterexample :
    test_tools envOk none = { error := some "Agent not initialized", success := some false }
    ∧ (test_tools envOk none).response = none
    ∧ (get_help envOk none).error = some noneGetHelpFault :=
  ⟨rfl, rfl, rfl⟩

/-- C4: a fault raised by the asynchronous agent operation inside
process_message or get_help is caught by the handler and converted into
a Result whose error field is the fault description and whose response
is an apology string embedding that same description. -/
theorem C4_fault_conversion (env : Env) (ops : AgentOps) (message user_id e : String)
    (h1 : ops.process_message message user_id = .error e)
    (h2 : ops.get_help_message = .error e) :
    (process_message env (some ops) message user_id).1 =
      { error := some e,
        response := some ("I encountered an error while processing your message: " ++ e) }
    ∧ get_help env (some ops) =
      { error := some e,
        response := some ("I encountered an error while getting help: " ++ e) } :=
  ⟨by simp [process_message, process_message_body, h1], by simp [get_help, h2]⟩

/-- C4 witness: instantiation at an agent whose operations raise the
fault boom. -/
theorem C4_fault_conversion_witness :
    failOps.process_message "hi" "web-user" = .error "boom"
    ∧ failOps.get_help_message = .error "boom"
    ∧ ((process_message envFail (some failOps) "hi" "web-user").1 =
        { error := some "boom",
          response := some ("I encountered an error while processing your message: " ++ "boom") }
      ∧ get_help envFail (some failOps) =
        { error := some "boom",
          response := some ("I encountered an error while getting help: " ++ "boom") }) :=
  ⟨rfl, rfl, C4_fault_conversion envFail failOps "hi" "web-user" "boom" rfl rfl⟩

/-- C5: omitting the user identifier and passing the explicit sentinel
identifier web-user produce the same outcome for process_message,
clear_conversation and analyze_conversation, the sentinel default being
shared by every handler that accepts a user identifier. -/
theorem C5_sentinel_default (env : Env) (agent : Option AgentOps) (message : String) :
    main env agent ["process_message", message] =
      main env agent ["process_message", message, "web-user"]
    ∧ main env agent ["clear_conversation"] =
      main env agent ["clear_conversation", "web-user"]
    ∧ main env agent ["analyze_conversation"] =
      main env agent ["analyze_conversation", "web-user"] :=
  ⟨rfl, rfl, rfl⟩

/-- C6: when the analysis reports no conversation, analyze_conversation
returns success = true with the fixed first-contact greeting, and the
Result is the same constant whatever the other fields of the analysis
hold. -/
theorem C6_first_contact (env : Env) (ops : AgentOps) (user_id : String) (analysis : Analysis)
    (h1 : ops.analyze_conversation user_id = .ok analysis)
    (h2 : analysis.has_conversation = false) :
    (analyze_conversation env (some ops) user_id).1 =
      { response := some firstContactGreeting, success := some true } := by
  simp [analyze_conversation, analyze_conversation_body, h1, h2]

/-- C6 witness: instantiation at a no-history analysis whose other
fields are populated. -/
theorem C6_first_contact_witness :
    stubOps.analyze_conversation "web-user" = .ok stubAnalysis
    ∧ stubAnalysis.has_conversation = false
    ∧ (analyze_conversation envOk (some stubOps) "web-user").1 =
        { response := some firstContactGreeting, success := some true } :=
  ⟨rfl, rfl, C6_first_contact envOk stubOps "web-user" stubAnalysis rfl rfl⟩

/-- C7: for an analysis with history the response is the report whose
sections appear in the fixed order header, statistics, topics,
sentiment, insights (one bullet per insight in supplied order), recent
messages (one line per message in supplied order) and closing summary;
the closing summary uses the singular topic exactly when the topic count
is one. -/
theorem C7_report_sections (env : Env) (ops : AgentOps) (user_id : String) (analysis : Analysis)
    (h1 : ops.analyze_conversation user_id = .ok analysis)
    (h2 : analysis.has_conversation = true) :
    (analyze_conversation env (some ops) user_id).1 =
      { response := some (String.intercalate "\n"
          (reportHeader ++ statisticsSection analysis.summary
            ++ topicsSection analysis.topics ++ sentimentSection analysis.sentiment
            ++ insightsSection analysis.insights
            ++ recentMessagesSection analysis.recent_messages
            ++ closingSection analysis)),
        success := some true }
    ∧ (pluralS analysis.topics.length = "" ↔ analysis.topics.length = 1) := by
  constructor
  · have hrep : analysisReport analysis =
        reportHeader ++ statisticsSection analysis.summary ++ topicsSection analysis.topics
          ++ sentimentSection analysis.sentiment ++ insightsSection analysis.insights
          ++ recentMessagesSection analysis.recent_messages ++ closingSection analysis := by
      simp [analysisReport, reportHeader, statisticsSection, topicsSection, sentimentSection,
        insightsSection, recentMessagesSection, closingSection]
    simp [analyze_conversation, analyze_conversation_body, h1, h2, hrep]
  · rcases eq_or_ne analysis.topics.length 1 with h | h
    · simp [pluralS, h]
    · rw [pluralS, if_pos h]
      exact iff_of_false (by decide) h

/-- C7 witness: instantiation at a one-topic analysis with history. -/
theorem C7_report_sections_witness :
    convOps.analyze_conversation "web-user" = .ok convAnalysis
    ∧ convAnalysis.has_conversation = true
    ∧ ((analyze_conversation envFail (some convOps) "web-user").1 =
        { response := some (String.intercalate "\n"
            (reportHeader ++ statisticsSection convAnalysis.summary
              ++ topicsSection convAnalysis.topics ++ sentimentSection convAnalysis.sentiment
              ++ insightsSection convAnalysis.insights
              ++ recentMessagesSection convAnalysis.recent_messages
              ++ closingSection convAnalysis)),
          success := some true }
      ∧ (pluralS convAnalysis.topics.length = "" ↔ convAnalysis.topics.length = 1)) :=
  ⟨rfl, rfl, C7_report_sections envFail convOps "web-user" convAnalysis rfl rfl⟩

/-- C8: any command name outside the supported set dispatches to the
unknown-command Result on the primary stream with exit code 0. -/
theorem C8_unknown_command (env : Env) (agent : Option AgentOps)
    (command : String) (args : List String) (h : command ∉ supportedCommands) :
    main env agent (command :: args) =
      .primary { error := some ("Unknown command: " ++ command) } 0 := by
  simp [supportedCommands, List.mem_cons, not_or] at h
  obtain ⟨h1, h2, h3, h4, h5⟩ := h
  simp [main, dispatch, h1, h2, h3, h4, h5]

/-- C8 witness: the unknown command foo_bar. -/
theorem C8_unknown_command_witness :
    "foo_bar" ∉ supportedCommands
    ∧ main envFail none ["foo_bar"] =
        .primary { error := some ("Unknown command: " ++ "foo_bar") } 0 :=
  ⟨by decide, C8_unknown_command envFail none "foo_bar" [] (by decide)⟩

/-- C9: with an initialized agent, test_tools reports success = true and
a test_results mapping whose keys are exactly the five tool names, every
entry carrying status success with its query and a response string; the
per-tool probe never takes its error branch, whatever the tool and
query. -/
theorem C9_test_tools_stub (env : Env) (ops : AgentOps) :
    test_tools env (some ops) =
      { test_results := some
          [("dictionary", { status := "success", query := "test",
                            response := some "Dictionary tool is available and working" }),
           ("weather", { status := "success", query := "current weather",
                         response := some "Weather tool is available and working" }),
           ("web_search", { status := "success", query := "latest news",
                            response := some "Web_Search tool is available and working" }),
           ("gmail", { status := "success", query := "email functionality",
                       response := some "Gmail tool is available and working" }),
           ("sheets", { status := "success", query := "spreadsheet access",
                        response := some "Sheets tool is available and working" })],
        success := some true }
    ∧ ∀ tool_name query : String, toolProbe tool_name query =
        .ok { status := "success", query := query,
              response := some (pyTitle tool_name ++ " tool is available and working") } :=
  ⟨rfl, fun _ _ => rfl⟩

/-- C10: trailing positional arguments beyond those a command consumes
do not change the outcome: process_message reads only the first two,
clear_conversation and analyze_conversation only the first, get_help and
test_tools none. -/
theorem C10_extra_args_ignored (env : Env) (agent : Option AgentOps)
    (message user_id : String) (rest args : List String) :
    main env agent ("process_message" :: message :: user_id :: rest) =
      main env agent ["process_message", message, user_id]
    ∧ main env agent ("clear_conversation" :: user_id :: rest) =
      main env agent ["clear_conversation", user_id]
    ∧ main env agent ("analyze_conversation" :: user_id :: rest) =
      main env agent ["analyze_conversation", user_id]
    ∧ main env agent ("get_help" :: args) = main env agent ["get_help"]
    ∧ main env agent ("test_tools" :: args) = main env agent ["test_tools"] :=
  ⟨rfl, rfl, rfl, rfl, rfl⟩

end PythonBridge
